import Mathlib

/-!
Verification of the parametric boat-hull generator.

Shallow embedding of:
* the shell mesher's triangle-index generation (`createHullGeometry` in the
  hull-mesh component; the emitted index list is independent of all numeric
  parameters, so it is embedded as a concrete list of `Nat` triples),
* the profile generator (`addCrossSection`),
* the buoyancy solver (`calculateCornerArea`, `calculateCrossSectionArea`,
  `calculateDisplacedVolume`, `calculatePLAVolume`, `calculatePLAMass`,
  `calculateTotalMass`, `calculateWaterlineHeight`),
* the cross-section extractor (`connectSegmentsIntoLoops`,
  `triangulateCrossSection`).

JavaScript floating-point numbers are modelled as real numbers.
-/

namespace BowWow

/-! ### Shell mesher: triangle index generation

`createHullGeometry` pushes vertex positions and triangle indices.  Every call
to `addCrossSection` pushes exactly `OUTER_POINTS * 2` vertices (both in the
collapsed-tip branch and in the full-ring branch), so every index below is a
fixed number independent of the numeric parameters: the whole index list is a
constant.  We reproduce it exactly. -/

/-- `const BILGE_SEGMENTS = 8` — number of segments for bilge curves. -/
def BILGE_SEGMENTS : ℕ := 8

/-- `const OUTER_POINTS = 2 * BILGE_SEGMENTS + 4` — points in one outer ring. -/
def OUTER_POINTS : ℕ := 2 * BILGE_SEGMENTS + 4

/-- `const POINTS_PER_SECTION = OUTER_POINTS * 2` — outer + inner ring. -/
def POINTS_PER_SECTION : ℕ := OUTER_POINTS * 2

/-- `IDX.bottomCenter` -/
def idxBottomCenter : ℕ := 0
/-- `IDX.leftBilgeStart` -/
def idxLeftBilgeStart : ℕ := 1
/-- `IDX.leftBilgeEnd` -/
def idxLeftBilgeEnd : ℕ := BILGE_SEGMENTS
/-- `IDX.topLeft` -/
def idxTopLeft : ℕ := BILGE_SEGMENTS + 1
/-- `IDX.topRight` -/
def idxTopRight : ℕ := BILGE_SEGMENTS + 2
/-- `IDX.rightBilgeStart` -/
def idxRightBilgeStart : ℕ := BILGE_SEGMENTS + 3
/-- `IDX.rightBilgeEnd` -/
def idxRightBilgeEnd : ℕ := 2 * BILGE_SEGMENTS + 2
/-- `IDX.bottomCenterClose` -/
def idxBottomCenterClose : ℕ := 2 * BILGE_SEGMENTS + 3
/-- `IDX.innerOffset` -/
def idxInnerOffset : ℕ := OUTER_POINTS

/-- `const sternSections = 3` — straight stern sections. -/
def sternSections : ℕ := 3
/-- `const bowSections = 20` -/
def bowSections : ℕ := 20
/-- `const numSections = (sternSections + 1) + bowSections` -/
def numSections : ℕ := (sternSections + 1) + bowSections

/-- A triangle of vertex indices, in emission order. -/
abbrev Tri : Type := ℕ × ℕ × ℕ

/-- `addQuad(curr, next, p1, p2, flip)` — the two triangles of one quad. -/
def addQuad (curr next p1 p2 : ℕ) (flip : Bool) : List Tri :=
  if flip then
    [(curr + p1, next + p2, curr + p2), (curr + p1, next + p1, next + p2)]
  else
    [(curr + p1, curr + p2, next + p2), (curr + p1, next + p2, next + p1)]

/-- The triangles emitted for one pair of adjacent sections (`sec`, `sec+1`):
outer surface, inner surface (reversed winding), and the top rim strips. -/
def sectionStrip (sec : ℕ) : List Tri :=
  let curr := sec * POINTS_PER_SECTION
  let next := (sec + 1) * POINTS_PER_SECTION
  let io := idxInnerOffset
  -- outer hull faces
  addQuad curr next idxBottomCenter idxLeftBilgeStart true ++
  (List.range (BILGE_SEGMENTS - 1)).flatMap
    (fun i => addQuad curr next (idxLeftBilgeStart + i) (idxLeftBilgeStart + i + 1) false) ++
  addQuad curr next idxLeftBilgeEnd idxTopLeft false ++
  -- top is open (no faces between topLeft and topRight)
  addQuad curr next idxTopRight idxRightBilgeStart false ++
  (List.range (BILGE_SEGMENTS - 1)).flatMap
    (fun i => addQuad curr next (idxRightBilgeStart + i) (idxRightBilgeStart + i + 1) false) ++
  addQuad curr next idxRightBilgeEnd idxBottomCenterClose true ++
  -- inner hull faces (reversed winding)
  addQuad curr next (io + idxBottomCenter) (io + idxLeftBilgeStart) true ++
  (List.range (BILGE_SEGMENTS - 1)).flatMap
    (fun i => addQuad curr next (io + idxLeftBilgeStart + i) (io + idxLeftBilgeStart + i + 1) true) ++
  addQuad curr next (io + idxLeftBilgeEnd) (io + idxTopLeft) true ++
  addQuad curr next (io + idxTopRight) (io + idxRightBilgeStart) true ++
  (List.range (BILGE_SEGMENTS - 1)).flatMap
    (fun i => addQuad curr next (io + idxRightBilgeStart + i) (io + idxRightBilgeStart + i + 1) true) ++
  addQuad curr next (io + idxRightBilgeEnd) (io + idxBottomCenterClose) true ++
  -- top rim: left then right
  [(curr + idxTopLeft, curr + io + idxTopLeft, next + io + idxTopLeft),
   (curr + idxTopLeft, next + io + idxTopLeft, next + idxTopLeft),
   (curr + idxTopRight, next + io + idxTopRight, curr + io + idxTopRight),
   (curr + idxTopRight, next + idxTopRight, next + io + idxTopRight)]

/-- `sternOuterBase` — outer points of section 0. -/
def sternOuterBase : ℕ := 0

/-- `innerSternBase = vertices.length / 3` at the time the offset inner stern
ring is pushed: all `numSections` sections have been emitted, each with
`POINTS_PER_SECTION` vertices. -/
def innerSternBase : ℕ := numSections * POINTS_PER_SECTION

/-- Outer transom face: fan from the bottom-center of section 0's outer ring. -/
def outerTransomFan : List Tri :=
  (List.range' idxLeftBilgeStart (idxTopLeft - idxLeftBilgeStart)).map
    (fun i => (sternOuterBase + idxBottomCenter, sternOuterBase + i, sternOuterBase + i + 1)) ++
  [(sternOuterBase + idxBottomCenter, sternOuterBase + idxTopLeft, sternOuterBase + idxTopRight),
   (sternOuterBase + idxBottomCenter, sternOuterBase + idxTopRight, sternOuterBase + idxRightBilgeStart)] ++
  (List.range' idxRightBilgeStart (idxBottomCenterClose - idxRightBilgeStart)).map
    (fun i => (sternOuterBase + idxBottomCenter, sternOuterBase + i, sternOuterBase + i + 1))

/-- Inner transom face: reversed fan over the offset inner stern ring. -/
def innerTransomFan : List Tri :=
  (List.range' idxLeftBilgeStart (idxTopLeft - idxLeftBilgeStart)).map
    (fun i => (innerSternBase + idxBottomCenter, innerSternBase + i + 1, innerSternBase + i)) ++
  [(innerSternBase + idxBottomCenter, innerSternBase + idxTopRight, innerSternBase + idxTopLeft),
   (innerSternBase + idxBottomCenter, innerSternBase + idxRightBilgeStart, innerSternBase + idxTopRight)] ++
  (List.range' idxRightBilgeStart (idxBottomCenterClose - idxRightBilgeStart)).map
    (fun i => (innerSternBase + idxBottomCenter, innerSternBase + i + 1, innerSternBase + i))

/-- Stern wall rim: connects section 0's outer ring to the offset inner ring. -/
def sternWallRim : List Tri :=
  -- left wall
  [(sternOuterBase + idxLeftBilgeEnd, sternOuterBase + idxTopLeft, innerSternBase + idxTopLeft),
   (sternOuterBase + idxLeftBilgeEnd, innerSternBase + idxTopLeft, innerSternBase + idxLeftBilgeEnd)] ++
  -- left bilge curve
  (List.range (BILGE_SEGMENTS - 1)).flatMap (fun i =>
    let outerCurr := sternOuterBase + idxLeftBilgeStart + i
    let outerNext := sternOuterBase + idxLeftBilgeStart + i + 1
    let innerCurr := innerSternBase + idxLeftBilgeStart + i
    let innerNext := innerSternBase + idxLeftBilgeStart + i + 1
    [(outerCurr, outerNext, innerNext), (outerCurr, innerNext, innerCurr)]) ++
  -- bottom left
  [(sternOuterBase + idxBottomCenter, sternOuterBase + idxLeftBilgeStart, innerSternBase + idxLeftBilgeStart),
   (sternOuterBase + idxBottomCenter, innerSternBase + idxLeftBilgeStart, innerSternBase + idxBottomCenter)] ++
  -- bottom right
  [(sternOuterBase + idxRightBilgeEnd, sternOuterBase + idxBottomCenterClose, innerSternBase + idxBottomCenterClose),
   (sternOuterBase + idxRightBilgeEnd, innerSternBase + idxBottomCenterClose, innerSternBase + idxRightBilgeEnd)] ++
  -- right bilge curve
  (List.range (BILGE_SEGMENTS - 1)).flatMap (fun i =>
    let outerCurr := sternOuterBase + idxRightBilgeStart + i
    let outerNext := sternOuterBase + idxRightBilgeStart + i + 1
    let innerCurr := innerSternBase + idxRightBilgeStart + i
    let innerNext := innerSternBase + idxRightBilgeStart + i + 1
    [(outerCurr, innerCurr, innerNext), (outerCurr, innerNext, outerNext)]) ++
  -- right wall
  [(sternOuterBase + idxTopRight, innerSternBase + idxTopRight, innerSternBase + idxRightBilgeStart),
   (sternOuterBase + idxTopRight, innerSternBase + idxRightBilgeStart, sternOuterBase + idxRightBilgeStart)]

/-- `section0Inner = sternSection + IDX.innerOffset` -/
def section0Inner : ℕ := sternOuterBase + idxInnerOffset

/-- Bridge from the offset inner stern ring to section 0's inner ring. -/
def innerSternBridge : List Tri :=
  -- left bilge
  (List.range (BILGE_SEGMENTS - 1)).flatMap (fun i =>
    let sternCurr := innerSternBase + idxLeftBilgeStart + i
    let sternNext := innerSternBase + idxLeftBilgeStart + i + 1
    let hullCurr := section0Inner + idxLeftBilgeStart + i
    let hullNext := section0Inner + idxLeftBilgeStart + i + 1
    [(sternCurr, hullNext, sternNext), (sternCurr, hullCurr, hullNext)]) ++
  -- left wall
  [(innerSternBase + idxLeftBilgeEnd, section0Inner + idxTopLeft, innerSternBase + idxTopLeft),
   (innerSternBase + idxLeftBilgeEnd, section0Inner + idxLeftBilgeEnd, section0Inner + idxTopLeft)] ++
  -- bottom left
  [(innerSternBase + idxBottomCenter, section0Inner + idxLeftBilgeStart, innerSternBase + idxLeftBilgeStart),
   (innerSternBase + idxBottomCenter, section0Inner + idxBottomCenter, section0Inner + idxLeftBilgeStart)] ++
  -- bottom right
  [(innerSternBase + idxRightBilgeEnd, section0Inner + idxBottomCenterClose, innerSternBase + idxBottomCenterClose),
   (innerSternBase + idxRightBilgeEnd, section0Inner + idxRightBilgeEnd, section0Inner + idxBottomCenterClose)] ++
  -- right bilge
  (List.range (BILGE_SEGMENTS - 1)).flatMap (fun i =>
    let sternCurr := innerSternBase + idxRightBilgeStart + i
    let sternNext := innerSternBase + idxRightBilgeStart + i + 1
    let hullCurr := section0Inner + idxRightBilgeStart + i
    let hullNext := section0Inner + idxRightBilgeStart + i + 1
    [(sternCurr, sternNext, hullNext), (sternCurr, hullNext, hullCurr)]) ++
  -- right wall
  [(innerSternBase + idxTopRight, innerSternBase + idxRightBilgeStart, section0Inner + idxRightBilgeStart),
   (innerSternBase + idxTopRight, section0Inner + idxRightBilgeStart, section0Inner + idxTopRight)]

/-- `lastFullSection = (numSections - 2) * POINTS_PER_SECTION` -/
def lastFullSection : ℕ := (numSections - 2) * POINTS_PER_SECTION
/-- `tipSection = (numSections - 1) * POINTS_PER_SECTION` -/
def tipSection : ℕ := (numSections - 1) * POINTS_PER_SECTION

/-- Bow tip closure: outer fan converging to the tip point. -/
def bowOuterFan : List Tri :=
  (List.range' idxBottomCenter (idxBottomCenterClose - idxBottomCenter)).map
    (fun i => (lastFullSection + i, lastFullSection + i + 1, tipSection + 0))

/-- Bow tip closure: inner fan (reversed winding). -/
def bowInnerFan : List Tri :=
  let io := idxInnerOffset
  (List.range' idxBottomCenter (idxBottomCenterClose - idxBottomCenter)).map
    (fun i => (lastFullSection + io + i, tipSection + io, lastFullSection + io + i + 1))

/-- Bow tip closure: wall thickness ring around the tip perimeter, with the
two special cases at the open-top indices. -/
def bowWallClosure : List Tri :=
  let io := idxInnerOffset
  (List.range' idxBottomCenter (idxBottomCenterClose - idxBottomCenter + 1)).flatMap (fun i =>
    let nextI := if i = idxBottomCenterClose then idxBottomCenter else i + 1
    if i = idxTopLeft then
      [(lastFullSection + idxTopLeft, lastFullSection + io + idxTopLeft, tipSection + io),
       (lastFullSection + idxTopLeft, tipSection + io, tipSection + 0)]
    else if i = idxTopRight then
      [(lastFullSection + idxTopRight, tipSection + 0, tipSection + io),
       (lastFullSection + idxTopRight, tipSection + io, lastFullSection + io + idxTopRight),
       (lastFullSection + idxRightBilgeStart, lastFullSection + idxTopRight, lastFullSection + io + idxTopRight),
       (lastFullSection + idxRightBilgeStart, lastFullSection + io + idxTopRight, lastFullSection + io + idxRightBilgeStart)]
    else
      [(lastFullSection + nextI, lastFullSection + i, lastFullSection + io + i),
       (lastFullSection + nextI, lastFullSection + io + i, lastFullSection + io + nextI)])

/-- The complete triangle index list emitted by `createHullGeometry`, in
emission order. -/
def hullIndices : List Tri :=
  (List.range (numSections - 1)).flatMap sectionStrip ++
  outerTransomFan ++ innerTransomFan ++ sternWallRim ++ innerSternBridge ++
  bowOuterFan ++ bowInnerFan ++ bowWallClosure

/-- Total number of vertices pushed by `createHullGeometry`: all sections plus
the offset inner stern ring. -/
def hullVertexCount : ℕ := numSections * POINTS_PER_SECTION + OUTER_POINTS

/-- A triangle has three pairwise-distinct indices, all below the bound. -/
def triOk (bound : ℕ) (t : Tri) : Bool :=
  decide (t.1 ≠ t.2.1 ∧ t.1 ≠ t.2.2 ∧ t.2.1 ≠ t.2.2 ∧
    t.1 < bound ∧ t.2.1 < bound ∧ t.2.2 < bound)

/-- Does triangle `t` contain the undirected edge `{a, b}` (two indices
appearing consecutively, including the closing edge)? -/
def triHasEdge (a b : ℕ) (t : Tri) : Bool :=
  (t.1 == a && t.2.1 == b) || (t.1 == b && t.2.1 == a) ||
  (t.2.1 == a && t.2.2 == b) || (t.2.1 == b && t.2.2 == a) ||
  (t.2.2 == a && t.1 == b) || (t.2.2 == b && t.1 == a)

/-- Number of triangles of `tris` incident to the undirected edge `{a, b}`. -/
def edgeTriangleCount (tris : List Tri) (a b : ℕ) : ℕ :=
  tris.countP (triHasEdge a b)

set_option maxRecDepth 100000 in
/-- C8: every triangle emitted by `createHullGeometry` — section quads via
`addQuad`, rim strips, stern transom fans and rims, inner-stern bridge, and
bow tip closure — has three pairwise-distinct vertex indices, each within
bounds of the vertex array (`0 ≤ index < hullVertexCount`). -/
theorem hullIndices_distinct_inBounds :
    hullIndices.all (triOk hullVertexCount) = true := by decide

set_option maxRecDepth 100000 in
/-- C1 (code evaluation): the generated shell mesh is not watertight.  The
undirected edge `{9, 969}` (section 0's outer top-left point to the offset
inner stern ring's top-left point — geometrically distinct positions) is an
edge of the stern wall rim incident to exactly one triangle, i.e. a boundary
edge; and the ring edge `{0, 1}` of section 0 is incident to three triangles
(side strip, transom fan and transom rim), i.e. non-manifold. -/
theorem hullIndices_not_watertight :
    edgeTriangleCount hullIndices 9 969 = 1 ∧
    edgeTriangleCount hullIndices 0 1 = 3 := by decide

/-! ### Data model

`BoatParams` (the `HullParameters` record) and the constants of the physics
module.  Numeric fields are modelled as real numbers. -/

/-- `type BowType = 'plumb' | 'raked' | 'deepV'` -/
inductive BowType : Type
  | plumb
  | raked
  | deepV
deriving DecidableEq

/-- The immutable parameter record `BoatParams`. -/
structure BoatParams : Type where
  buildPlateSize : ℝ
  boatLength : ℝ
  beam : ℝ
  hullHeight : ℝ
  wallThickness : ℝ
  bilgeRadius : ℝ
  bowType : BowType
  bowLengthPercent : ℝ
  bowRakeAngle : ℝ
  bowEntryAngle : ℝ
  motorMountDiameter : ℝ
  motorMountOffset : ℝ
  motorMountNeckWidth : ℝ
  motorMountLength : ℝ
  motorMountFromStern : ℝ
  motorWeight : ℝ
  batteryWeight : ℝ
  ballastWeight : ℝ

/-- `DEFAULT_PARAMS` -/
def DEFAULT_PARAMS : BoatParams where
  buildPlateSize := 140
  boatLength := 150
  beam := 40
  hullHeight := 25
  wallThickness := 1.2
  bilgeRadius := 5
  bowType := BowType.plumb
  bowLengthPercent := 40
  bowRakeAngle := 30
  bowEntryAngle := 20
  motorMountDiameter := 4
  motorMountOffset := 1
  motorMountNeckWidth := 3
  motorMountLength := 22
  motorMountFromStern := 50
  motorWeight := 10
  batteryWeight := 23
  ballastWeight := 0

/-- `PLA_DENSITY = 1.25` (g/cm³). -/
def PLA_DENSITY : ℝ := 1.25

/-! ### Buoyancy solver (physics module) -/

/-- `calculateCornerArea(r, height)`: area of a bilge corner from `y = 0` to
`y = height` where the corner is a quarter circle of radius `r`.
JS `height >= r` is `r ≤ height`. -/
noncomputable def calculateCornerArea (r height : ℝ) : ℝ :=
  if r ≤ height then
    -- full quarter circle
    Real.pi * r ^ 2 / 4
  else
    -- partial circle segment
    let h := height
    let theta := Real.arccos ((r - h) / r)
    r ^ 2 * (theta - Real.sin theta * Real.cos theta) / 2

/-- `calculateCrossSectionArea(beam, bilgeRadius, atHeight)`: cross-sectional
area of the hull at a given height, accounting for the bilge radius. -/
noncomputable def calculateCrossSectionArea (beam bilgeRadius atHeight : ℝ) : ℝ :=
  if atHeight ≤ 0 then 0
  else
    let halfBeam := beam / 2
    let r := min bilgeRadius (min halfBeam atHeight)
    if r ≤ 0 then
      -- simple rectangle
      beam * atHeight
    else if atHeight ≤ r then
      -- height is within the bilge curve region
      let centerWidth := beam - 2 * r
      let centerArea := centerWidth * atHeight
      let cornerArea := calculateCornerArea r atHeight
      centerArea + 2 * cornerArea
    else
      -- height is above bilge curve
      let cornerCut := r * r
      let quarterCircle := Real.pi * r * r / 4
      let cornerCorrection := 2 * (quarterCircle - cornerCut)
      beam * atHeight + cornerCorrection

/-- The average of the solver's linear taper scales at the two ends of bow
segment `i` (`scale = 1 - t * 0.97`, `t1 = i/20`, `t2 = (i+1)/20`). -/
noncomputable def bowAvgScale (i : ℕ) : ℝ :=
  let t1 := (i : ℝ) / 20
  let t2 := ((i : ℝ) + 1) / 20
  let scale1 := 1 - t1 * 0.97
  let scale2 := 1 - t2 * 0.97
  (scale1 + scale2) / 2

/-- `calculateDisplacedVolume(params, totalLength, waterlineHeight)` (mm³):
stern contributes a constant cross-section times its length; the bow is
integrated over `bowSegments = 20` trapezoid segments of the linear taper. -/
noncomputable def calculateDisplacedVolume
    (params : BoatParams) (totalLength waterlineHeight : ℝ) : ℝ :=
  if waterlineHeight ≤ 0 then 0
  else
    let bowLength := totalLength * (params.bowLengthPercent / 100)
    let sternLength := totalLength - bowLength
    let sternArea := calculateCrossSectionArea params.beam params.bilgeRadius waterlineHeight
    let sternVolume := sternArea * sternLength
    let bowVolume := ∑ i ∈ Finset.range 20,
      calculateCrossSectionArea (params.beam * bowAvgScale i)
        (params.bilgeRadius * bowAvgScale i) waterlineHeight * (bowLength / 20)
    sternVolume + bowVolume

/-- `calculatePLAVolume(params, totalLength)` (mm³): volume of material in the
hull shell. -/
noncomputable def calculatePLAVolume (params : BoatParams) (totalLength : ℝ) : ℝ :=
  let bowLength := totalLength * (params.bowLengthPercent / 100)
  let sternLength := totalLength - bowLength
  let outerArea := calculateCrossSectionArea params.beam params.bilgeRadius params.hullHeight
  let innerBeam := params.beam - 2 * params.wallThickness
  let innerBilge := max 0 (params.bilgeRadius - params.wallThickness)
  let innerHeight := params.hullHeight - params.wallThickness
  let innerArea := if 0 < innerBeam then calculateCrossSectionArea innerBeam innerBilge innerHeight else 0
  let sternShellArea := outerArea - innerArea
  let sternVolume := sternShellArea * sternLength + outerArea * params.wallThickness
  let bowVolume := ∑ i ∈ Finset.range 20,
    (calculateCrossSectionArea (params.beam * bowAvgScale i)
        (params.bilgeRadius * bowAvgScale i) params.hullHeight -
      (if 0 < innerBeam * bowAvgScale i then
        calculateCrossSectionArea (innerBeam * bowAvgScale i) (innerBilge * bowAvgScale i)
          (params.hullHeight - params.wallThickness * max 0.5 (bowAvgScale i))
      else 0)) * (bowLength / 20)
  sternVolume + bowVolume

/-- `calculatePLAMass(params, totalLength)` (g). -/
noncomputable def calculatePLAMass (params : BoatParams) (totalLength : ℝ) : ℝ :=
  calculatePLAVolume params totalLength / 1000 * PLA_DENSITY

/-- `calculateTotalMass(params, totalLength)` (g). -/
noncomputable def calculateTotalMass (params : BoatParams) (totalLength : ℝ) : ℝ :=
  calculatePLAMass params totalLength + params.motorWeight + params.batteryWeight +
    params.ballastWeight

/-- The bisection loop of `calculateWaterlineHeight`, with the remaining
iteration budget as fuel (the source runs `for iter = 0; iter < 50`).  On a
spent budget the bracket midpoint is returned. -/
noncomputable def waterlineBisect (params : BoatParams) (totalLength requiredVolume : ℝ) :
    ℕ → ℝ → ℝ → ℝ
  | 0, low, high => (low + high) / 2
  | n + 1, low, high =>
    let mid := (low + high) / 2
    let volume := calculateDisplacedVolume params totalLength mid
    if |volume - requiredVolume| < requiredVolume * 0.001 then mid
    else
      let low' := if volume < requiredVolume then mid else low
      let high' := if volume < requiredVolume then high else mid
      if high' - low' < 0.1 then mid
      else waterlineBisect params totalLength requiredVolume n low' high'

/-- `calculateWaterlineHeight(params, totalLength)`: bisection over
`[0, hullHeight]` for the height at which displaced mass equals total mass. -/
noncomputable def calculateWaterlineHeight (params : BoatParams) (totalLength : ℝ) : ℝ :=
  let totalMass := calculateTotalMass params totalLength
  let waterDensityGPerMm3 : ℝ := 0.001
  let requiredVolume := totalMass / waterDensityGPerMm3
  waterlineBisect params totalLength requiredVolume 50 0 params.hullHeight

/-- `wouldSink(params, totalLength)`. -/
noncomputable def wouldSink (params : BoatParams) (totalLength : ℝ) : Prop :=
  params.hullHeight * 0.95 ≤ calculateWaterlineHeight params totalLength

/-! ### Closed forms for the cross-section area -/

/-- When the height reaches the radius, the corner is a full quarter circle. -/
lemma calculateCornerArea_of_le {r height : ℝ} (h : r ≤ height) :
    calculateCornerArea r height = Real.pi * r ^ 2 / 4 := if_pos h

/-- Closed form of `calculateCrossSectionArea` for positive heights: the
radius clamp `r = min(bilgeRadius, halfBeam, atHeight)` forces `r = atHeight`
in the `atHeight ≤ r` branch, so the corners there are full quarter circles
of radius `atHeight`. -/
lemma calculateCrossSectionArea_of_pos (B b h : ℝ) (hh : 0 < h) :
    calculateCrossSectionArea B b h =
      if min b (B / 2) ≤ 0 then B * h
      else if h ≤ min b (B / 2) then B * h - (2 - Real.pi / 2) * h ^ 2
      else B * h + (Real.pi / 2 - 2) * min b (B / 2) ^ 2 := by
  have hrh : min b (min (B / 2) h) ≤ h := le_trans (min_le_right _ _) (min_le_right _ _)
  have hassoc : min b (min (B / 2) h) = min (min b (B / 2)) h := (min_assoc b (B / 2) h).symm
  have hiff1 : min b (min (B / 2) h) ≤ 0 ↔ min b (B / 2) ≤ 0 := by
    rw [hassoc]
    constructor
    · intro hle
      rcases min_le_iff.mp hle with hc | hc
      · exact hc
      · linarith
    · intro hle
      exact le_trans (min_le_left _ _) hle
  have hiff2 : h ≤ min b (min (B / 2) h) ↔ h ≤ min b (B / 2) := by
    rw [hassoc, le_min_iff]
    simp
  simp only [calculateCrossSectionArea, if_neg (not_le.mpr hh), hiff1, hiff2]
  split_ifs with hg1 hg2
  · rfl
  · -- h ≤ min b (B/2): the clamp gives r = h, corner is a quarter circle
    have he : min b (min (B / 2) h) = h := le_antisymm hrh (hiff2.mpr hg2)
    rw [he, calculateCornerArea_of_le (le_refl h)]
    ring
  · -- above the clamped radius: r = min b (B/2)
    push_neg at hg2
    have he : min b (min (B / 2) h) = min b (B / 2) := by
      rw [hassoc]
      exact min_eq_left hg2.le
    rw [he]
    ring

/-- The cross-section area is non-negative for a non-negative beam. -/
lemma calculateCrossSectionArea_nonneg (B b h : ℝ) (hB : 0 ≤ B) :
    0 ≤ calculateCrossSectionArea B b h := by
  by_cases hh : h ≤ 0
  · simp only [calculateCrossSectionArea, if_pos hh]
    exact le_refl 0
  · push_neg at hh
    rw [calculateCrossSectionArea_of_pos B b h hh]
    have hπ3 : (3 : ℝ) < Real.pi := Real.pi_gt_three
    have hπ4 : Real.pi ≤ 4 := Real.pi_le_four
    split_ifs with h1 h2
    · exact mul_nonneg hB hh.le
    · push_neg at h1
      have hB' : h ≤ B / 2 := le_trans h2 (min_le_right _ _)
      nlinarith [mul_nonneg (by linarith : (0 : ℝ) ≤ B / 2 - h) hh.le]
    · push_neg at h1 h2
      have hmB : min b (B / 2) ≤ B / 2 := min_le_right _ _
      nlinarith [mul_nonneg (by linarith : (0 : ℝ) ≤ h - min b (B / 2)) h1.le,
        sq_nonneg (min b (B / 2))]

/-- The cross-section area is non-decreasing in the height. -/
lemma calculateCrossSectionArea_mono (B b : ℝ) (hB : 0 ≤ B) {h1 h2 : ℝ} (h12 : h1 ≤ h2) :
    calculateCrossSectionArea B b h1 ≤ calculateCrossSectionArea B b h2 := by
  by_cases hh1 : h1 ≤ 0
  · have : calculateCrossSectionArea B b h1 = 0 := by
      simp only [calculateCrossSectionArea, if_pos hh1]
    rw [this]
    exact calculateCrossSectionArea_nonneg B b h2 hB
  push_neg at hh1
  have hh2 : 0 < h2 := lt_of_lt_of_le hh1 h12
  rw [calculateCrossSectionArea_of_pos B b h1 hh1, calculateCrossSectionArea_of_pos B b h2 hh2]
  have hπ3 : (3 : ℝ) < Real.pi := Real.pi_gt_three
  have hπ4 : Real.pi ≤ 4 := Real.pi_le_four
  have hmB : min b (B / 2) ≤ B / 2 := min_le_right _ _
  by_cases hm : min b (B / 2) ≤ 0
  · rw [if_pos hm, if_pos hm]
    exact mul_le_mul_of_nonneg_left h12 hB
  push_neg at hm
  rw [if_neg (not_le.mpr hm), if_neg (not_le.mpr hm)]
  by_cases ha : h1 ≤ min b (B / 2)
  · by_cases hb : h2 ≤ min b (B / 2)
    · rw [if_pos ha, if_pos hb]
      have key : (2 - Real.pi / 2) * (h1 + h2) ≤ B := by
        nlinarith [mul_nonneg (by linarith : (0 : ℝ) ≤ 1 / 2 - (2 - Real.pi / 2))
          (by linarith : (0 : ℝ) ≤ h1 + h2)]
      nlinarith [mul_nonneg (sub_nonneg.mpr h12) (sub_nonneg.mpr key)]
    · rw [if_pos ha, if_neg hb]
      push_neg at hb
      have key : (2 - Real.pi / 2) * (min b (B / 2) + h1) ≤ B := by
        nlinarith [mul_nonneg (by linarith : (0 : ℝ) ≤ 1 / 2 - (2 - Real.pi / 2))
          (by linarith : (0 : ℝ) ≤ min b (B / 2) + h1)]
      nlinarith [mul_nonneg (sub_nonneg.mpr ha) (sub_nonneg.mpr key),
        mul_le_mul_of_nonneg_left (hb.le : min b (B / 2) ≤ h2) hB]
  · push_neg at ha
    have hb : ¬ h2 ≤ min b (B / 2) := not_le.mpr (lt_of_lt_of_le ha h12)
    rw [if_neg (not_le.mpr ha), if_neg hb]
    nlinarith [mul_le_mul_of_nonneg_left h12 hB]

/-! ### Theorems about the buoyancy solver -/

/-- The bisection loop never leaves its bracket. -/
lemma waterlineBisect_mem (params : BoatParams) (L R : ℝ) (n : ℕ) :
    ∀ low high : ℝ, low ≤ high →
      low ≤ waterlineBisect params L R n low high ∧
        waterlineBisect params L R n low high ≤ high := by
  induction n with
  | zero =>
    intro low high hlh
    simp only [waterlineBisect]
    constructor <;> linarith
  | succ n ih =>
    intro low high hlh
    simp only [waterlineBisect]
    split_ifs with hconv hvol hwid hvol hwid
    · constructor <;> linarith
    · constructor <;> linarith
    · have h' := ih ((low + high) / 2) high (by linarith)
      constructor <;> linarith [h'.1, h'.2]
    · constructor <;> linarith
    · have h' := ih low ((low + high) / 2) (by linarith)
      constructor <;> linarith [h'.1, h'.2]

/-- C2: for `hullHeight ≥ 0`, `calculateWaterlineHeight` returns a value in
`[0, hullHeight]`.  The bisection runs on a budget of 50 iterations (the
recursion fuel), returns early inside the loop on the relative-volume or
bracket-width conditions of the source, and — as the final conjunct states —
returns the bracket midpoint (never an error) when the budget is exhausted. -/
theorem calculateWaterlineHeight_bounds (params : BoatParams) (totalLength : ℝ)
    (hH : 0 ≤ params.hullHeight) :
    0 ≤ calculateWaterlineHeight params totalLength ∧
      calculateWaterlineHeight params totalLength ≤ params.hullHeight ∧
      ∀ R low high : ℝ, waterlineBisect params totalLength R 0 low high = (low + high) / 2 := by
  have h := waterlineBisect_mem params totalLength
    (calculateTotalMass params totalLength / 0.001) 50 0 params.hullHeight hH
  exact ⟨h.1, h.2, fun R low high => rfl⟩

/-- Witness for C2 at the default parameters. -/
theorem calculateWaterlineHeight_bounds_witness :
    0 ≤ calculateWaterlineHeight DEFAULT_PARAMS 150 ∧
      calculateWaterlineHeight DEFAULT_PARAMS 150 ≤ DEFAULT_PARAMS.hullHeight ∧
      ∀ R low high : ℝ, waterlineBisect DEFAULT_PARAMS 150 R 0 low high = (low + high) / 2 :=
  calculateWaterlineHeight_bounds DEFAULT_PARAMS 150 (by norm_num [DEFAULT_PARAMS])

/-- The solver's trapezoid scale average is positive on every bow segment. -/
lemma bowAvgScale_nonneg {i : ℕ} (hi : i < 20) : 0 ≤ bowAvgScale i := by
  have hle : (i : ℝ) ≤ 19 := by exact_mod_cast Nat.lt_succ_iff.mp hi
  have h0 : (0 : ℝ) ≤ (i : ℝ) := Nat.cast_nonneg i
  simp only [bowAvgScale]
  linarith

/-- C3: `calculateDisplacedVolume` is non-decreasing in the waterline height,
for non-negative beam and bilge radius, `bowLengthPercent ∈ [0, 100]`,
non-negative total length and heights `0 ≤ h1 ≤ h2 ≤ hullHeight`. -/
theorem calculateDisplacedVolume_mono (params : BoatParams) (totalLength h1 h2 : ℝ)
    (hbeam : 0 ≤ params.beam) (hbilge : 0 ≤ params.bilgeRadius)
    (hpct0 : 0 ≤ params.bowLengthPercent) (hpct100 : params.bowLengthPercent ≤ 100)
    (hL : 0 ≤ totalLength) (hh1 : 0 ≤ h1) (hh2 : h2 ≤ params.hullHeight) (h12 : h1 ≤ h2) :
    calculateDisplacedVolume params totalLength h1 ≤
      calculateDisplacedVolume params totalLength h2 := by
  have hbow : 0 ≤ totalLength * (params.bowLengthPercent / 100) :=
    mul_nonneg hL (by linarith)
  have hstern : 0 ≤ totalLength - totalLength * (params.bowLengthPercent / 100) := by
    nlinarith
  have hseg : 0 ≤ totalLength * (params.bowLengthPercent / 100) / 20 := by linarith
  by_cases hA : h2 ≤ 0
  · have hB' : h1 ≤ 0 := le_trans h12 hA
    simp only [calculateDisplacedVolume, if_pos hA, if_pos hB']
    exact le_refl 0
  push_neg at hA
  have hrhs : 0 ≤ calculateDisplacedVolume params totalLength h2 := by
    simp only [calculateDisplacedVolume, if_neg (not_le.mpr hA)]
    refine add_nonneg (mul_nonneg (calculateCrossSectionArea_nonneg _ _ _ hbeam) hstern) ?_
    refine Finset.sum_nonneg fun i hi => mul_nonneg ?_ hseg
    exact calculateCrossSectionArea_nonneg _ _ _
      (mul_nonneg hbeam (bowAvgScale_nonneg (Finset.mem_range.mp hi)))
  by_cases hB : h1 ≤ 0
  · have hlhs : calculateDisplacedVolume params totalLength h1 = 0 := by
      simp only [calculateDisplacedVolume, if_pos hB]
    rw [hlhs]
    exact hrhs
  push_neg at hB
  simp only [calculateDisplacedVolume, if_neg (not_le.mpr hA), if_neg (not_le.mpr hB)]
  refine add_le_add ?_ ?_
  · exact mul_le_mul_of_nonneg_right
      (calculateCrossSectionArea_mono params.beam params.bilgeRadius hbeam h12) hstern
  · refine Finset.sum_le_sum fun i hi => mul_le_mul_of_nonneg_right ?_ hseg
    exact calculateCrossSectionArea_mono _ _
      (mul_nonneg hbeam (bowAvgScale_nonneg (Finset.mem_range.mp hi))) h12

/-- Witness for C3 at the default parameters, `h1 = 1`, `h2 = 2`. -/
theorem calculateDisplacedVolume_mono_witness :
    calculateDisplacedVolume DEFAULT_PARAMS 150 1 ≤
      calculateDisplacedVolume DEFAULT_PARAMS 150 2 :=
  calculateDisplacedVolume_mono DEFAULT_PARAMS 150 1 2
    (by norm_num [DEFAULT_PARAMS]) (by norm_num [DEFAULT_PARAMS])
    (by norm_num [DEFAULT_PARAMS]) (by norm_num [DEFAULT_PARAMS])
    (by norm_num) (by norm_num) (by norm_num [DEFAULT_PARAMS]) (by norm_num)

/-- C4 (counterexample): at `beam = 10`, `bilgeRadius = 4`, `atHeight = 2`
(height below the bilge radius), the code does not equal the claimed
center-strip-plus-circular-segment formula for radius `bilgeRadius`: the
radius clamp `r = min(bilgeRadius, halfBeam, atHeight) = 2` makes the code
return `(10 - 2·2)·2 + 2·(π·2²/4) = 12 + 2π`, not the arc-cosine segment
value `4 + 16π/3 - 4√3`. -/
theorem calculateCrossSectionArea_claim_counterexample :
    calculateCrossSectionArea 10 4 2 ≠
      (10 - 2 * 4) * 2 + 2 * ((4 : ℝ) ^ 2 *
        (Real.arccos ((4 - 2) / 4) -
          Real.sin (Real.arccos ((4 - 2) / 4)) * Real.cos (Real.arccos ((4 - 2) / 4))) / 2) := by
  have hcode : calculateCrossSectionArea 10 4 2 = 12 + 2 * Real.pi := by
    rw [calculateCrossSectionArea_of_pos 10 4 2 (by norm_num)]
    have hm : min (4 : ℝ) (10 / 2) = 4 := by norm_num [min_def]
    rw [hm, if_neg (by norm_num), if_pos (by norm_num)]
    ring
  have harc : Real.arccos (((4 : ℝ) - 2) / 4) = Real.pi / 3 := by
    have h1 : (((4 : ℝ) - 2) / 4) = 1 / 2 := by norm_num
    rw [h1, show (1 / 2 : ℝ) = Real.cos (Real.pi / 3) from Real.cos_pi_div_three.symm]
    exact Real.arccos_cos (by positivity) (by linarith [Real.pi_pos])
  rw [hcode, harc, Real.sin_pi_div_three, Real.cos_pi_div_three]
  have hs : Real.sqrt 3 ^ 2 = 3 := Real.sq_sqrt (by norm_num)
  have hπ4 : Real.pi ≤ 4 := Real.pi_le_four
  have hπ3 : (3 : ℝ) < Real.pi := Real.pi_gt_three
  intro heq
  have h1 : 12 * Real.sqrt 3 = 10 * Real.pi - 24 := by linarith
  have h2 : (12 * Real.sqrt 3) ^ 2 = 432 := by
    rw [mul_pow, hs]
    norm_num
  rw [h1] at h2
  nlinarith [h2, mul_nonneg (by linarith : (0 : ℝ) ≤ 16 - (10 * Real.pi - 24))
    (by linarith : (0 : ℝ) ≤ 10 * Real.pi - 24)]

/-- C4 (amended): for positive heights the three regimes of
`calculateCrossSectionArea` are governed by the clamped radius
`r = min(bilgeRadius, halfBeam, atHeight)`: if `min(bilgeRadius, beam/2) ≤ 0`
the area is the plain rectangle; if `atHeight ≤ min(bilgeRadius, beam/2)` the
clamp forces `r = atHeight` and the area is the center strip
`(beam - 2·atHeight)·atHeight` plus two full quarter circles of radius
`atHeight` (the arc-cosine segment branch is never taken); above that the
area is the rectangle plus the corner correction for
`r = min(bilgeRadius, beam/2)`. -/
theorem calculateCrossSectionArea_regimes (beam bilgeRadius atHeight : ℝ)
    (hpos : 0 < atHeight) :
    calculateCrossSectionArea beam bilgeRadius atHeight =
      if min bilgeRadius (beam / 2) ≤ 0 then beam * atHeight
      else if atHeight ≤ min bilgeRadius (beam / 2) then
        (beam - 2 * atHeight) * atHeight + 2 * (Real.pi * atHeight ^ 2 / 4)
      else
        beam * atHeight +
          2 * (Real.pi * min bilgeRadius (beam / 2) ^ 2 / 4 - min bilgeRadius (beam / 2) ^ 2) := by
  rw [calculateCrossSectionArea_of_pos beam bilgeRadius atHeight hpos]
  split_ifs with h1 h2
  · rfl
  · ring
  · ring

/-- Witness for the amended C4 at `beam = 10`, `bilgeRadius = 4`,
`atHeight = 2`. -/
theorem calculateCrossSectionArea_regimes_witness :
    calculateCrossSectionArea 10 4 2 =
      if min (4 : ℝ) (10 / 2) ≤ 0 then 10 * 2
      else if (2 : ℝ) ≤ min 4 (10 / 2) then
        (10 - 2 * 2) * 2 + 2 * (Real.pi * 2 ^ 2 / 4)
      else
        10 * 2 + 2 * (Real.pi * min (4 : ℝ) (10 / 2) ^ 2 / 4 - min (4 : ℝ) (10 / 2) ^ 2) :=
  calculateCrossSectionArea_regimes 10 4 2 (by norm_num)

/-- C10: whenever `calculateCrossSectionArea` reaches the branch that calls
`calculateCornerArea` — height positive, clamped radius
`r = min(bilgeRadius, halfBeam, atHeight)` positive, and `atHeight ≤ r` — the
radius argument is at most the height argument (the clamp includes
`atHeight`), so `calculateCornerArea` takes its full-quarter-circle branch:
the arc-cosine partial-segment formula is unreachable from
`calculateCrossSectionArea`. -/
theorem calculateCornerArea_call_quarter (beam bilgeRadius atHeight : ℝ)
    (hpos : 0 < atHeight)
    (hr : 0 < min bilgeRadius (min (beam / 2) atHeight))
    (hbranch : atHeight ≤ min bilgeRadius (min (beam / 2) atHeight)) :
    min bilgeRadius (min (beam / 2) atHeight) ≤ atHeight ∧
      calculateCornerArea (min bilgeRadius (min (beam / 2) atHeight)) atHeight =
        Real.pi * min bilgeRadius (min (beam / 2) atHeight) ^ 2 / 4 := by
  have hle : min bilgeRadius (min (beam / 2) atHeight) ≤ atHeight :=
    le_trans (min_le_right _ _) (min_le_right _ _)
  exact ⟨hle, calculateCornerArea_of_le hle⟩

/-- Witness for C10 at `beam = 4`, `bilgeRadius = 2`, `atHeight = 1`. -/
theorem calculateCornerArea_call_quarter_witness :
    min (2 : ℝ) (min (4 / 2) 1) ≤ 1 ∧
      calculateCornerArea (min (2 : ℝ) (min (4 / 2) 1)) 1 =
        Real.pi * min (2 : ℝ) (min (4 / 2) 1) ^ 2 / 4 :=
  calculateCornerArea_call_quarter 4 2 1 (by norm_num)
    (by norm_num [min_def]) (by norm_num [min_def])

/-! ### Profile generator (`addCrossSection`) and the two taper scales -/

/-- The shell mesher's per-section bow taper scale at progress `t`:
`scale = Math.max(0, 1 - t)`. -/
noncomputable def mesherBowScale (t : ℝ) : ℝ := max 0 (1 - t)

/-- The buoyancy solver's per-segment taper scale at progress `t`:
`scale = 1 - t * 0.97` ("linear taper from full beam to ~3% at tip"). -/
noncomputable def solverBowScale (t : ℝ) : ℝ := 1 - t * 0.97

/-- C5 (counterexample): at bow progress `t = 1` the solver's taper scale is
`0.03`, the mesher's is `0` — the two models do not use the same taper. -/
theorem bowScale_agree_counterexample : solverBowScale 1 ≠ mesherBowScale 1 := by
  simp only [solverBowScale, mesherBowScale]
  norm_num

/-- C5 (amended): on `t ∈ [0, 1]` the mesher's per-section scale is `1 - t`
(tapering to 0) while the solver's per-segment scale is `1 - 0.97·t`
(tapering to 0.03); they differ by exactly `0.03·t` and agree only at
`t = 0`. -/
theorem bowScale_relation (t : ℝ) (h0 : 0 ≤ t) (h1 : t ≤ 1) :
    mesherBowScale t = 1 - t ∧
      solverBowScale t - mesherBowScale t = 0.03 * t ∧
      (solverBowScale t = mesherBowScale t ↔ t = 0) := by
  have hm : mesherBowScale t = 1 - t := max_eq_right (by linarith)
  refine ⟨hm, ?_, ?_⟩
  · rw [hm]
    simp only [solverBowScale]
    ring
  · rw [hm]
    simp only [solverBowScale]
    constructor
    · intro h
      linarith
    · intro h
      rw [h]
      ring

/-- Witness for the amended C5 at `t = 1/2`. -/
theorem bowScale_relation_witness :
    mesherBowScale (1 / 2) = 1 - 1 / 2 ∧
      solverBowScale (1 / 2) - mesherBowScale (1 / 2) = 0.03 * (1 / 2) ∧
      (solverBowScale (1 / 2) = mesherBowScale (1 / 2) ↔ (1 / 2 : ℝ) = 0) :=
  bowScale_relation (1 / 2) (by norm_num) (by norm_num)

/-- The Deep-V effective bilge radius before the scale clamp: for bow style
deepV and `bowProgress > 0`,
`effectiveBilgeRadius = bilgeRadius * (1 - bowProgress * (0.5 + (bowEntryAngle/45) * 0.45))`. -/
noncomputable def deepVEffectiveBilgeRadius (bilgeRadius bowEntryAngle bowProgress : ℝ) : ℝ :=
  if 0 < bowProgress then
    bilgeRadius * (1 - bowProgress * (0.5 + bowEntryAngle / 45 * 0.45))
  else bilgeRadius

/-- C6 (counterexample): at `bilgeRadius = 1`, `bowEntryAngle = 45°` and
`bowProgress = 1`, the effective bilge radius is `0.05` — 5% retention, not
the claimed 95%. -/
theorem deepVRetention_counterexample :
    deepVEffectiveBilgeRadius 1 45 1 = 1 / 20 ∧ (1 / 20 : ℝ) ≠ 19 / 20 := by
  constructor
  · simp only [deepVEffectiveBilgeRadius, if_pos one_pos]
    norm_num
  · norm_num

/-- C6 (amended): at `bowProgress = 1` the retained fraction of the bilge
radius is `0.5 - (bowEntryAngle/45)·0.45` — it decreases linearly from 50%
retention at entry angle 0° to 5% retention at 45°; equivalently the
*reduction* interpolates linearly between 50% and 95% controlled by
`bowEntryAngle/45`. -/
theorem deepVRetention_linear (bilgeRadius bowEntryAngle : ℝ) :
    deepVEffectiveBilgeRadius bilgeRadius bowEntryAngle 1 =
        bilgeRadius * (1 - (0.5 + bowEntryAngle / 45 * 0.45)) ∧
      deepVEffectiveBilgeRadius bilgeRadius bowEntryAngle 1 =
        bilgeRadius * (0.5 - bowEntryAngle / 45 * 0.45) ∧
      deepVEffectiveBilgeRadius bilgeRadius 0 1 = bilgeRadius * 0.5 ∧
      deepVEffectiveBilgeRadius bilgeRadius 45 1 = bilgeRadius * 0.05 := by
  simp only [deepVEffectiveBilgeRadius, if_pos one_pos]
  refine ⟨by ring, by ring, by norm_num, by norm_num⟩

/-- A 3D point, as pushed on the `vertices` array. -/
abbrev Point3 : Type := ℝ × ℝ × ℝ

/-- `calcRakeOffset(y)`: the forward lean of a point at height `y` for the
raked bow style. -/
noncomputable def calcRakeOffset (bowType : BowType) (rakeRad bowProgress y : ℝ) : ℝ :=
  if bowType ≠ BowType.raked ∨ bowProgress = 0 then 0
  else y * Real.tan rakeRad * bowProgress

/-- `addCrossSection(z, scale, bowProgress, isBowTip, beamOverride)`: the list
of 3D points pushed for one cross-section (outer ring then inner ring). -/
noncomputable def addCrossSection (params : BoatParams) (z scale bowProgress : ℝ)
    (isBowTip : Bool) (beamOverride : Option ℝ) : List Point3 :=
  let hullHeight := params.hullHeight
  let wallThickness := params.wallThickness
  let rakeRad := params.bowRakeAngle * Real.pi / 180
  let effectiveBeam := beamOverride.getD params.beam
  let halfBeam := effectiveBeam / 2 * scale
  -- for Deep V: reduce bilge radius toward bow to create sharper V entry
  let effectiveBilgeRadius :=
    if params.bowType = BowType.deepV then
      deepVEffectiveBilgeRadius params.bilgeRadius params.bowEntryAngle bowProgress
    else params.bilgeRadius
  let r := min (effectiveBilgeRadius * scale) (min (halfBeam - 0.1) (hullHeight - 0.1))
  let effectiveR := max 0 r
  let innerHalfBeam := max 0.1 (halfBeam - wallThickness)
  let innerR := max 0 (effectiveR - wallThickness)
  let innerBottom := wallThickness
  if isBowTip = true ∨ halfBeam < 0.5 ∨ scale < 0.02 then
    -- collapsed to center line for bow tip
    let tipZ := z + calcRakeOffset params.bowType rakeRad bowProgress (hullHeight / 2)
    List.replicate OUTER_POINTS ((0 : ℝ), (0 : ℝ), tipZ) ++
      List.replicate OUTER_POINTS ((0 : ℝ), wallThickness, tipZ)
  else
    let z0 := z + calcRakeOffset params.bowType rakeRad bowProgress 0
    let zTop := z + calcRakeOffset params.bowType rakeRad bowProgress hullHeight
    -- outer ring
    [((0 : ℝ), (0 : ℝ), z0)] ++
    (List.range BILGE_SEGMENTS).map (fun i =>
      let angle := Real.pi / 2 * ((i : ℝ) / ((BILGE_SEGMENTS : ℝ) - 1))
      let y := effectiveR - Real.cos angle * effectiveR
      (-(halfBeam - effectiveR) - Real.sin angle * effectiveR, y,
        z + calcRakeOffset params.bowType rakeRad bowProgress y)) ++
    [(-halfBeam, hullHeight, zTop), (halfBeam, hullHeight, zTop)] ++
    (List.range BILGE_SEGMENTS).map (fun i =>
      let angle := Real.pi / 2 * (1 - (i : ℝ) / ((BILGE_SEGMENTS : ℝ) - 1))
      let y := effectiveR - Real.cos angle * effectiveR
      (halfBeam - effectiveR + Real.sin angle * effectiveR, y,
        z + calcRakeOffset params.bowType rakeRad bowProgress y)) ++
    [((0 : ℝ), (0 : ℝ), z0)] ++
    -- inner ring (same structure, inset)
    [((0 : ℝ), innerBottom, z + calcRakeOffset params.bowType rakeRad bowProgress innerBottom)] ++
    (List.range BILGE_SEGMENTS).map (fun i =>
      let angle := Real.pi / 2 * ((i : ℝ) / ((BILGE_SEGMENTS : ℝ) - 1))
      let y := innerBottom + innerR - Real.cos angle * innerR
      (-(innerHalfBeam - innerR) - Real.sin angle * innerR, y,
        z + calcRakeOffset params.bowType rakeRad bowProgress y)) ++
    [(-innerHalfBeam, hullHeight, zTop), (innerHalfBeam, hullHeight, zTop)] ++
    (List.range BILGE_SEGMENTS).map (fun i =>
      let angle := Real.pi / 2 * (1 - (i : ℝ) / ((BILGE_SEGMENTS : ℝ) - 1))
      let y := innerBottom + innerR - Real.cos angle * innerR
      (innerHalfBeam - innerR + Real.sin angle * innerR, y,
        z + calcRakeOffset params.bowType rakeRad bowProgress y)) ++
    [((0 : ℝ), innerBottom, z + calcRakeOffset params.bowType rakeRad bowProgress innerBottom)]

/-- C7: whenever `addCrossSection` is called with `isBowTip` set, or with
`halfBeam = (effectiveBeam/2)·scale` below `0.5`, or with `scale` below
`0.02`, it emits all `OUTER_POINTS` outer ring points at the single collapsed
position `(x = 0, y = 0, z + rakeOffset(hullHeight/2))` and all inner ring
points at `(x = 0, y = wallThickness, same z)`, for every bow style; in
particular every point of the profile has `x = 0`. -/
theorem addCrossSection_collapse (params : BoatParams) (z scale bowProgress : ℝ)
    (isBowTip : Bool) (beamOverride : Option ℝ)
    (hcond : isBowTip = true ∨ beamOverride.getD params.beam / 2 * scale < 0.5 ∨
      scale < 0.02) :
    addCrossSection params z scale bowProgress isBowTip beamOverride =
      List.replicate OUTER_POINTS
        ((0 : ℝ), (0 : ℝ), z + calcRakeOffset params.bowType
          (params.bowRakeAngle * Real.pi / 180) bowProgress (params.hullHeight / 2)) ++
      List.replicate OUTER_POINTS
        ((0 : ℝ), params.wallThickness, z + calcRakeOffset params.bowType
          (params.bowRakeAngle * Real.pi / 180) bowProgress (params.hullHeight / 2)) ∧
    ∀ p ∈ addCrossSection params z scale bowProgress isBowTip beamOverride, p.1 = 0 := by
  have heq : addCrossSection params z scale bowProgress isBowTip beamOverride =
      List.replicate OUTER_POINTS
        ((0 : ℝ), (0 : ℝ), z + calcRakeOffset params.bowType
          (params.bowRakeAngle * Real.pi / 180) bowProgress (params.hullHeight / 2)) ++
      List.replicate OUTER_POINTS
        ((0 : ℝ), params.wallThickness, z + calcRakeOffset params.bowType
          (params.bowRakeAngle * Real.pi / 180) bowProgress (params.hullHeight / 2)) := by
    simp only [addCrossSection]
    rw [if_pos hcond]
  refine ⟨heq, ?_⟩
  intro p hp
  rw [heq] at hp
  rcases List.mem_append.mp hp with h | h <;>
    simp [List.eq_of_mem_replicate h]

/-- Witness for C7: the default parameters with `isBowTip = true`. -/
theorem addCrossSection_collapse_witness :
    addCrossSection DEFAULT_PARAMS 0 1 1 true none =
      List.replicate OUTER_POINTS
        ((0 : ℝ), (0 : ℝ), 0 + calcRakeOffset DEFAULT_PARAMS.bowType
          (DEFAULT_PARAMS.bowRakeAngle * Real.pi / 180) 1 (DEFAULT_PARAMS.hullHeight / 2)) ++
      List.replicate OUTER_POINTS
        ((0 : ℝ), DEFAULT_PARAMS.wallThickness, 0 + calcRakeOffset DEFAULT_PARAMS.bowType
          (DEFAULT_PARAMS.bowRakeAngle * Real.pi / 180) 1 (DEFAULT_PARAMS.hullHeight / 2)) ∧
    ∀ p ∈ addCrossSection DEFAULT_PARAMS 0 1 1 true none, p.1 = 0 :=
  addCrossSection_collapse DEFAULT_PARAMS 0 1 1 true none (Or.inl rfl)

/-! ### Cross-section extractor (`planeIntersection.ts`) -/

/-- An intersection segment (TS fields `start` / `end`; `end` is reserved in
Lean so the second field is named `stop`). -/
structure IntersectionSegment : Type where
  start : Point3
  stop : Point3

/-- Euclidean distance between two points (`THREE.Vector3.distanceTo`). -/
noncomputable def dist3 (a b : Point3) : ℝ :=
  Real.sqrt ((a.1 - b.1) ^ 2 + (a.2.1 - b.2.1) ^ 2 + (a.2.2 - b.2.2) ^ 2)

/-- `pointsEqual(a, b)`: distance below the matching tolerance `0.01`. -/
noncomputable def pointsEqual (a b : Point3) : Prop := dist3 a b < 0.01

noncomputable instance (a b : Point3) : Decidable (pointsEqual a b) :=
  inferInstanceAs (Decidable (dist3 a b < 0.01))

/-- The scan inside `findConnectingSegment`, over indexed segments: skip used
indices, match the candidate's start (walk forward) or end (reversed). -/
noncomputable def findFrom (point : Point3) (excludeIndices : List ℕ) :
    List (ℕ × IntersectionSegment) → Option (ℕ × IntersectionSegment × Bool)
  | [] => none
  | (i, s) :: rest =>
    if i ∈ excludeIndices then findFrom point excludeIndices rest
    else if pointsEqual s.start point then some (i, s, false)
    else if pointsEqual s.stop point then some (i, s, true)
    else findFrom point excludeIndices rest

/-- `findConnectingSegment(point, excludeIndices)`: first unused segment with
an endpoint near `point` (also returning the segment itself, which the source
reads back as `segments[next.index]`). -/
noncomputable def findConnectingSegment (segments : List IntersectionSegment)
    (point : Point3) (excludeIndices : List ℕ) : Option (ℕ × IntersectionSegment × Bool) :=
  findFrom point excludeIndices segments.enum

/-- The inner stitching loop of `connectSegmentsIntoLoops`: extend the open
loop whose first point is `first` from its trailing endpoint, for at most
`maxIterations = segments.length` iterations (the fuel), until no candidate
connects or the loop closes on `first`. -/
noncomputable def extendLoop (segments : List IntersectionSegment) (first : Point3) :
    ℕ → List Point3 → Point3 → List ℕ → List Point3 × List ℕ
  | 0, loop, _, used => (loop, used)
  | fuel + 1, loop, currentEnd, used =>
    match findConnectingSegment segments currentEnd used with
    | none => (loop, used)
    | some (i, seg, reverse) =>
      let used' := used ++ [i]
      let p := if reverse then seg.start else seg.stop
      let loop' := loop ++ [p]
      if pointsEqual p first then (loop', used')
      else extendLoop segments first fuel loop' p used'

/-- The outer loop of `connectSegmentsIntoLoops` (`while used.size <
segments.length`): start a new loop from the first unused segment, stitch it,
and keep it only when it has at least 3 points.  Each iteration consumes at
least the starting segment, so `segments.length` is enough fuel. -/
noncomputable def connectLoopsGo (segments : List IntersectionSegment) :
    ℕ → List ℕ → List (List Point3) → List (List Point3)
  | 0, _, loops => loops
  | fuel + 1, used, loops =>
    if used.length < segments.length then
      match segments.enum.find? (fun p => !(used.contains p.1)) with
      | none => loops
      | some (startIdx, seg) =>
        let res := extendLoop segments seg.start segments.length
          [seg.start, seg.stop] seg.stop (used ++ [startIdx])
        let loops' := if 3 ≤ res.1.length then loops ++ [res.1] else loops
        connectLoopsGo segments fuel res.2 loops'
    else loops

/-- `connectSegmentsIntoLoops(segments)`. -/
noncomputable def connectSegmentsIntoLoops (segments : List IntersectionSegment) :
    List (List Point3) :=
  if segments.length = 0 then [] else connectLoopsGo segments segments.length [] []

/-- `calculateSignedArea(points)`: the shoelace formula (the cyclic successor
`points[(i+1) % n]` is obtained by rotating the list by one). -/
noncomputable def calculateSignedArea (points : List (ℝ × ℝ)) : ℝ :=
  (((points.zip (points.rotate 1)).map
    (fun pq => pq.1.1 * pq.2.2 - pq.2.1 * pq.1.2)).sum) / 2

/-- The 2D projection dropping the dominant axis of the plane normal. -/
noncomputable def projectTo2D (normal : Point3) (v : Point3) : ℝ × ℝ :=
  let absX := |normal.1|
  let absY := |normal.2.1|
  let absZ := |normal.2.2|
  if absX ≤ absY ∧ absZ ≤ absY then (v.1, v.2.2)
  else if absZ ≤ absX then (v.2.1, v.2.2)
  else (v.1, v.2.1)

/-- One entry of the `loops2D` array: projected 2D points, the original 3D
points, and the absolute projected area. -/
abbrev Loop2D : Type := List (ℝ × ℝ) × List Point3 × ℝ

/-- Insertion step of the sort of `loops2D` by descending area
(`loops2D.sort((a, b) => b.area - a.area)`). -/
noncomputable def insertByArea (x : Loop2D) : List Loop2D → List Loop2D
  | [] => [x]
  | y :: ys => if y.2.2 ≤ x.2.2 then x :: y :: ys else y :: insertByArea x ys

/-- Sort of `loops2D` by descending area. -/
noncomputable def sortByAreaDesc : List Loop2D → List Loop2D
  | [] => []
  | x :: xs => insertByArea x (sortByAreaDesc xs)

/-- `triangulateCrossSection(loops, plane)`, parameterized by the external
triangulator `THREE.ShapeUtils.triangulateShape` (a three.js library function
outside this repository: outer contour and holes in 2D to triangle index
triples).  Loops with fewer than 3 points are skipped; the largest-area loop
is the outer boundary, the rest are holes; `none` models the source's `null`
returns. -/
noncomputable def triangulateCrossSection
    (triangulateShape : List (ℝ × ℝ) → List (List (ℝ × ℝ)) → List (ℕ × ℕ × ℕ))
    (normal : Point3) (loops : List (List Point3)) :
    Option (List Point3 × List (ℕ × ℕ × ℕ)) :=
  if loops.length = 0 then none
  else
    let loops2D : List Loop2D := (loops.filter fun loop => 3 ≤ loop.length).map fun loop =>
      (loop.map (projectTo2D normal), loop,
        |calculateSignedArea (loop.map (projectTo2D normal))|)
    if loops2D.length = 0 then none
    else
      match sortByAreaDesc loops2D with
      | [] => none -- unreachable: the sort preserves the (nonzero) length
      | outerLoop :: rest =>
        let triangles := triangulateShape outerLoop.1 (rest.map fun l => l.1)
        if triangles.length = 0 then none
        else
          let all3DPoints := outerLoop.2.1 ++ rest.flatMap fun l => l.2.1
          if all3DPoints.length = 0 then none
          else some (all3DPoints, triangles)

/-- Every loop the outer stitching loop appends has passed the ≥ 3 check. -/
lemma connectLoopsGo_length (segments : List IntersectionSegment) :
    ∀ (fuel : ℕ) (used : List ℕ) (loops : List (List Point3)),
      (∀ l ∈ loops, 3 ≤ l.length) →
      ∀ l ∈ connectLoopsGo segments fuel used loops, 3 ≤ l.length := by
  intro fuel
  induction fuel with
  | zero =>
    intro used loops hacc l hl
    simp only [connectLoopsGo] at hl
    exact hacc l hl
  | succ n ih =>
    intro used loops hacc l hl
    simp only [connectLoopsGo] at hl
    by_cases hlt : used.length < segments.length
    · rw [if_pos hlt] at hl
      rcases hfind : segments.enum.find? (fun p => !(used.contains p.1)) with _ | ⟨startIdx, seg⟩
      · rw [hfind] at hl
        exact hacc l hl
      · rw [hfind] at hl
        simp only at hl
        by_cases h3 : 3 ≤ (extendLoop segments seg.start segments.length
            [seg.start, seg.stop] seg.stop (used ++ [startIdx])).1.length
        · rw [if_pos h3] at hl
          refine ih _ _ ?_ l hl
          intro l' hl'
          rcases List.mem_append.mp hl' with h | h
          · exact hacc l' h
          · rw [List.mem_singleton.mp h]
            exact h3
        · rw [if_neg h3] at hl
          exact ih _ _ hacc l hl
    · rw [if_neg hlt] at hl
      exact hacc l hl

/-- C9: the extractor's degenerate-input safety.  (1) `connectSegmentsIntoLoops`
never produces a loop with fewer than 3 points; `triangulateCrossSection`
returns `null` when (2) given no loops, (3) no loop with at least 3 points
survives, or (4) the triangulation yields no triangles — it is a total
function (never an exception) for any cutting plane and any triangulator. -/
theorem extractor_degenerate_safety :
    (∀ segments : List IntersectionSegment,
      ∀ loop ∈ connectSegmentsIntoLoops segments, 3 ≤ loop.length) ∧
    (∀ triangulateShape normal,
      triangulateCrossSection triangulateShape normal [] = none) ∧
    (∀ triangulateShape normal loops, (∀ loop ∈ loops, loop.length < 3) →
      triangulateCrossSection triangulateShape normal loops = none) ∧
    (∀ triangulateShape normal loops,
      (∀ outer holes, triangulateShape outer holes = ([] : List (ℕ × ℕ × ℕ))) →
      triangulateCrossSection triangulateShape normal loops = none) := by
  refine ⟨?_, ?_, ?_, ?_⟩
  · intro segments loop hloop
    simp only [connectSegmentsIntoLoops] at hloop
    by_cases hs : segments.length = 0
    · rw [if_pos hs] at hloop
      simp at hloop
    · rw [if_neg hs] at hloop
      exact connectLoopsGo_length segments segments.length [] []
        (by intro l hl; simp at hl) loop hloop
  · intro triangulateShape normal
    simp [triangulateCrossSection]
  · intro triangulateShape normal loops hshort
    have hfilter : loops.filter (fun loop => 3 ≤ loop.length) = [] := by
      rw [List.filter_eq_nil_iff]
      intro a ha
      simpa using Nat.not_le.mpr (hshort a ha)
    simp only [triangulateCrossSection, hfilter, List.map_nil, List.length_nil]
    split_ifs <;> rfl
  · intro triangulateShape normal loops htri
    simp only [triangulateCrossSection]
    split_ifs with h1 h2
    · rfl
    · rfl
    · rcases hsort : sortByAreaDesc ((loops.filter fun loop => 3 ≤ loop.length).map
        fun loop => (loop.map (projectTo2D normal), loop,
          |calculateSignedArea (loop.map (projectTo2D normal))|)) with _ | ⟨outerLoop, rest⟩
      · rw [hsort]
      · rw [hsort]
        simp [htri]

/-- Witness for C9: a single 1-point loop is rejected by
`triangulateCrossSection`. -/
theorem extractor_degenerate_safety_witness :
    triangulateCrossSection (fun _ _ => []) ((1 : ℝ), (0 : ℝ), (0 : ℝ))
      [[((0 : ℝ), (0 : ℝ), (0 : ℝ))]] = none :=
  extractor_degenerate_safety.2.2.1 (fun _ _ => []) (1, 0, 0) [[(0, 0, 0)]]
    (by
      intro loop hloop
      rw [List.mem_singleton.mp hloop]
      norm_num)

end BowWow
